import Mathlib

/-!
Verification model of the security-and-mutation core of a directory-serving
HTTP server (sources: src/auth.rs, src/errors.rs, src/file_upload.rs).

Paths are modelled component-wise, following the Unix component iteration of
the host language path type: a root marker, current-directory markers,
parent-directory markers and named segments.  Filesystem effects are modelled
by an explicit in-memory state; OS-level failures (file creation, mkdir) are
modelled by boolean oracles passed at the call site.  Cryptographic digests
are parameters (the source is generic over the digest type).
-/

/-- One component of a filesystem path, as produced by the component iterator
of the host path library on Unix. -/
inductive PathComponent where
  | rootDir : PathComponent
  | curDir : PathComponent
  | parentDir : PathComponent
  | normal : String → PathComponent
deriving DecidableEq

/-- A filesystem path, as its list of components. -/
structure FsPath where
  components : List PathComponent
deriving DecidableEq

/-- Split a character list on the slash separator, keeping empty segments. -/
def splitSlash : List Char → List (List Char)
  | [] => [[]]
  | c :: rest =>
    if c = '/' then [] :: splitSlash rest
    else
      match splitSlash rest with
      | seg :: more => (c :: seg) :: more
      | [] => [[c]]

/-- Interpret one non-empty path segment as a component: ".." is a parent
reference, "." a current-directory reference, anything else a named segment. -/
def segToComponent (seg : List Char) : PathComponent :=
  if seg = ['.', '.'] then PathComponent.parentDir
  else if seg = ['.'] then PathComponent.curDir
  else PathComponent.normal (String.mk seg)

/-- Drop current-directory components (the component iterator normalises
occurrences of "." away except at the start of a relative path). -/
def dropCurDirs (l : List PathComponent) : List PathComponent :=
  l.filter (fun c => c ≠ PathComponent.curDir)

/-- Parse a path string into components, following the Unix rules of the host
path library: a leading slash yields a root component; empty segments are
ignored; "." is kept only as the first component of a relative path. -/
def parsePath (s : String) : FsPath :=
  let segs := (splitSlash s.data).filter (fun seg => seg ≠ [])
  let raw := segs.map segToComponent
  if s.data.head? = some '/' then ⟨PathComponent.rootDir :: dropCurDirs raw⟩
  else
    match raw with
    | PathComponent.curDir :: rest => ⟨PathComponent.curDir :: dropCurDirs rest⟩
    | l => ⟨dropCurDirs l⟩

/-- Path join, with the push semantics of the host path library: joining an
absolute path replaces the receiver entirely. -/
def FsPath.join (p q : FsPath) : FsPath :=
  match q.components with
  | PathComponent.rootDir :: _ => q
  | _ => ⟨p.components ++ q.components⟩

/-- Component-wise prefix test, as in the starts_with method of the host path
library. -/
def FsPath.startsWith (p base : FsPath) : Bool :=
  base.components.isPrefixOf p.components

/-- Strip one leading root component if present; on failure (relative path)
the original path is kept, as at the strip call sites in the handlers. -/
def FsPath.stripRootDir (p : FsPath) : FsPath :=
  match p.components with
  | PathComponent.rootDir :: rest => ⟨rest⟩
  | _ => p

/-- Render a path for error messages. -/
def PathComponent.render : PathComponent → String
  | PathComponent.rootDir => "/"
  | PathComponent.curDir => "."
  | PathComponent.parentDir => ".."
  | PathComponent.normal s => s

/-- Render a path for error messages (display in the source). -/
def FsPath.render (p : FsPath) : String :=
  String.intercalate "/" (p.components.map PathComponent.render)

/-- The error taxonomy of src/errors.rs (ContextualError).  Payloads that are
foreign error values in the source (io::Error, MultipartError, base64 decode
errors) are carried as strings.  Two constructors are referenced by callers in
src/file_upload.rs and src/auth.rs but are missing from the enum declaration
in src/errors.rs; they are modelled from the spec and marked below. -/
inductive ContextualError where
  | IoError : String → String → ContextualError
  | MultipartError : String → ContextualError
  | DuplicateFileError : ContextualError
  | InvalidPathError : String → ContextualError
  | InvalidAuthFormat : ContextualError
  | InvalidHashMethod : String → ContextualError
  | InvalidPasswordHash : ContextualError
  | PasswordTooLongError : ContextualError
  | InsufficientPermissionsError : String → ContextualError
  | ParseError : String → String → ContextualError
  | ArchiveCreationError : String → ContextualError → ContextualError
  | ArchiveCreationDetailError : String → ContextualError
  | HttpAuthenticationError : ContextualError → ContextualError
  | InvalidHttpCredentials : ContextualError
  | InvalidHttpRequestError : String → ContextualError
  | RouteNotFoundError : String → ContextualError
  | NoExplicitPathAndNoTerminal : ContextualError
  | NoSymlinksOptionWithSymlinkServePath : String → ContextualError
  /-- Modelled from the spec: the mkdir-conflict error used by
  handle_create_dir in src/file_upload.rs; its declaration is missing from
  the enum in src/errors.rs. -/
  | ConflictMkdirError : ContextualError
  /-- Modelled from the spec: the base64 decode failure used by
  parse_basic_auth in src/auth.rs (a typed decode error); its declaration is
  missing from the enum in src/errors.rs. -/
  | Base64DecodeError : String → ContextualError
deriving DecidableEq

deriving instance DecidableEq for Except

/-- The status-code derivation of src/errors.rs (ResponseError impl): two
composite variants recurse into the wrapped cause, four variants have
dedicated arms, and everything else falls to the 500 catch-all.  The two
constructors missing from the enum declaration have no dedicated arm, so they
fall to the catch-all as well. -/
def ContextualError.status_code : ContextualError → Nat
  | ContextualError.ArchiveCreationError _ err => err.status_code
  | ContextualError.HttpAuthenticationError err => err.status_code
  | ContextualError.RouteNotFoundError _ => 404
  | ContextualError.InsufficientPermissionsError _ => 403
  | ContextualError.InvalidHttpCredentials => 401
  | ContextualError.InvalidHttpRequestError _ => 400
  | _ => 500

/-- True exactly on the InvalidPathError variant. -/
def ContextualError.isInvalidPath : ContextualError → Bool
  | ContextualError.InvalidPathError _ => true
  | _ => false

/-- HTTP Basic authentication parameters (src/auth.rs). -/
structure BasicAuthParams where
  username : String
  password : String
deriving DecidableEq

/-- The password field of a required account (src/auth.rs): plain text, or a
stored sha256 or sha512 digest (byte sequence). -/
inductive RequiredAuthPassword where
  | Plain : String → RequiredAuthPassword
  | Sha256 : List Nat → RequiredAuthPassword
  | Sha512 : List Nat → RequiredAuthPassword
deriving DecidableEq

/-- An account to match a credential attempt against (src/auth.rs). -/
structure RequiredAuth where
  username : String
  password : RequiredAuthPassword
deriving DecidableEq

/-- The two digest functions.  The source is generic over the digest type
(compare_hash and get_hash take a Digest type parameter); the model makes the
digests explicit parameters mapping a password to its digest bytes. -/
structure HashAlgs where
  sha256 : String → List Nat
  sha512 : String → List Nat

/-- compare_hash from src/auth.rs: the digest of the password equals the
stored hash, element-wise on bytes. -/
def compare_hash (digest : String → List Nat) (password : String)
    (hash : List Nat) : Bool :=
  digest password == hash

/-- compare_password from src/auth.rs: plain passwords compare as strings,
hashed passwords by digesting the attempted password. -/
def compare_password (A : HashAlgs) (basic_auth_pwd : String) :
    RequiredAuthPassword → Bool
  | RequiredAuthPassword.Plain required_password =>
      basic_auth_pwd == required_password
  | RequiredAuthPassword.Sha256 password_hash =>
      compare_hash A.sha256 basic_auth_pwd password_hash
  | RequiredAuthPassword.Sha512 password_hash =>
      compare_hash A.sha512 basic_auth_pwd password_hash

/-- match_auth from src/auth.rs: some account matches both the username and
the password requirement. -/
def match_auth (A : HashAlgs) (basic_auth : BasicAuthParams)
    (required_auth : List RequiredAuth) : Bool :=
  required_auth.any fun r =>
    basic_auth.username == r.username &&
      compare_password A basic_auth.password r.password

/-- The to_str conversion of a header value: succeeds only when every byte is
visible ASCII (32 to 126) or horizontal tab, in which case the bytes are the
characters. -/
def headerToStr (bytes : List Nat) : Option String :=
  if bytes.all (fun b => (32 ≤ b && b ≤ 126) || b = 9) then
    some (String.mk (bytes.map Char.ofNat))
  else none

/-- Replace every non-overlapping occurrence of a pattern, left to right, as
the replace method of the host string type does.  Structured with explicit
fuel (the input length) so it evaluates by kernel reduction. -/
def replaceAllFuel (pat rep : List Char) : Nat → List Char → List Char
  | _, [] => []
  | 0, l => l
  | Nat.succ fuel, c :: rest =>
    if pat.isPrefixOf (c :: rest) then
      rep ++ replaceAllFuel pat rep fuel ((c :: rest).drop pat.length)
    else c :: replaceAllFuel pat rep fuel rest

/-- Replace every occurrence of a pattern in a character list. -/
def replaceAll (pat rep l : List Char) : List Char :=
  replaceAllFuel pat rep l.length l

/-- The value of one base64 symbol in the standard alphabet. -/
def b64Val (c : Char) : Option Nat :=
  if 'A' ≤ c && c ≤ 'Z' then some (c.toNat - 65)
  else if 'a' ≤ c && c ≤ 'z' then some (c.toNat - 71)
  else if '0' ≤ c && c ≤ '9' then some (c.toNat + 4)
  else if c = '+' then some 62
  else if c = '/' then some 63
  else none

/-- Standard base64 decoding with mandatory canonical padding, block by
block; padding may only occur in the final block and non-canonical trailing
bits are rejected, as in the base64 crate used by the source. -/
def b64DecodeChars : List Char → Option (List Nat)
  | [] => some []
  | c1 :: c2 :: c3 :: c4 :: rest =>
    match b64Val c1, b64Val c2 with
    | some v1, some v2 =>
      if c3 = '=' then
        if c4 = '=' && rest = [] && v2 % 16 = 0 then
          some [v1 * 4 + v2 / 16]
        else none
      else
        match b64Val c3 with
        | some v3 =>
          if c4 = '=' then
            if rest = [] && v3 % 4 = 0 then
              some [v1 * 4 + v2 / 16, v2 % 16 * 16 + v3 / 4]
            else none
          else
            match b64Val c4, b64DecodeChars rest with
            | some v4, some tail =>
              some ((v1 * 4 + v2 / 16) :: (v2 % 16 * 16 + v3 / 4) ::
                (v3 % 4 * 64 + v4) :: tail)
            | _, _ => none
        | none => none
    | _, _ => none
  | _ => none

/-- base64 decode of a string (the decode function of the base64 crate). -/
def base64Decode (s : String) : Option (List Nat) :=
  b64DecodeChars s.data

/-- True when a byte is a UTF-8 continuation byte. -/
def isCont (b : Nat) : Bool :=
  128 ≤ b && b ≤ 191

/-- The Unicode replacement character. -/
def replChar : Char := Char.ofNat 0xFFFD

/-- Lossy UTF-8 decoding with explicit fuel (one unit per consumed lead byte)
so that the recursion is structural and evaluates by kernel reduction. -/
def utf8LossyFuel : Nat → List Nat → List Char
  | _, [] => []
  | 0, _ => []
  | Nat.succ fuel, b :: rest =>
    if b ≤ 127 then Char.ofNat b :: utf8LossyFuel fuel rest
    else if 194 ≤ b && b ≤ 223 then
      match rest with
      | c1 :: rest1 =>
        if isCont c1 then
          Char.ofNat ((b - 192) * 64 + (c1 - 128)) :: utf8LossyFuel fuel rest1
        else replChar :: utf8LossyFuel fuel (c1 :: rest1)
      | [] => [replChar]
    else if 224 ≤ b && b ≤ 239 then
      match rest with
      | c1 :: c2 :: rest2 =>
        if isCont c1 && isCont c2 then
          let cp := (b - 224) * 4096 + (c1 - 128) * 64 + (c2 - 128)
          if 2048 ≤ cp && (cp < 55296 || 57343 < cp) then
            Char.ofNat cp :: utf8LossyFuel fuel rest2
          else replChar :: utf8LossyFuel fuel (c1 :: c2 :: rest2)
        else replChar :: utf8LossyFuel fuel (c1 :: c2 :: rest2)
      | l => replChar :: utf8LossyFuel fuel l
    else if 240 ≤ b && b ≤ 244 then
      match rest with
      | c1 :: c2 :: c3 :: rest3 =>
        if isCont c1 && isCont c2 && isCont c3 then
          let cp := (b - 240) * 262144 + (c1 - 128) * 4096 +
            (c2 - 128) * 64 + (c3 - 128)
          if 65536 ≤ cp && cp ≤ 1114111 then
            Char.ofNat cp :: utf8LossyFuel fuel rest3
          else replChar :: utf8LossyFuel fuel (c1 :: c2 :: c3 :: rest3)
        else replChar :: utf8LossyFuel fuel (c1 :: c2 :: c3 :: rest3)
      | l => replChar :: utf8LossyFuel fuel l
    else replChar :: utf8LossyFuel fuel rest

/-- Lossy UTF-8 decoding (from_utf8_lossy in the source): well-formed
sequences decode to their scalar value, ill-formed bytes become replacement
characters. -/
def utf8Lossy (l : List Nat) : List Char :=
  utf8LossyFuel l.length l

/-- Split a character list at the first occurrence of a separator; none when
the separator does not occur.  This is the splitn call of the source with
limit two: at most two fragments, the second keeping later separators. -/
def splitFirst (sep : Char) : List Char → Option (List Char × List Char)
  | [] => none
  | c :: rest =>
    if c = sep then some ([], rest)
    else
      match splitFirst sep rest with
      | some (a, b) => some (c :: a, b)
      | none => none

/-- Outcome of parse_basic_auth.  The panic constructor records the
out-of-bounds vector index the source performs when the decoded credential
string contains no colon (credentials has a single element and element one is
read). -/
inductive ParseResult where
  | ok : BasicAuthParams → ParseResult
  | err : ContextualError → ParseResult
  | panic : ParseResult
deriving DecidableEq

/-- The pattern removed from the header value. -/
def basicPat : List Char := ['B', 'a', 's', 'i', 'c', ' ']

/-- The tail of parse_basic_auth after the prefix-removal step: base64-decode,
lossy UTF-8 decode, split on the first colon, and read elements zero and one
of the resulting vector (element one is an out-of-bounds read when there is
no colon). -/
def decodeCreds (basic_removed : String) : ParseResult :=
  match base64Decode basic_removed with
  | none => ParseResult.err (ContextualError.Base64DecodeError "base64 decode failure")
  | some decoded =>
    let decoded_str := utf8Lossy decoded
    match splitFirst ':' decoded_str with
    | some (u, p) => ParseResult.ok ⟨String.mk u, String.mk p⟩
    | none => ParseResult.panic

/-- parse_basic_auth from src/auth.rs: convert the header value to a string
(failing with ParseError on non-visible-ASCII bytes), remove every occurrence
of the pattern, base64-decode, lossy-UTF-8-decode, split on the first colon
and read both elements of the resulting vector. -/
def parse_basic_auth (authorization_header : List Nat) : ParseResult :=
  match headerToStr authorization_header with
  | none =>
    ParseResult.err (ContextualError.ParseError
      "HTTP authentication header" "header value contains non-visible ASCII")
  | some s =>
    let basic_removed := String.mk (replaceAll basicPat [] s.data)
    match base64Decode basic_removed with
    | none => ParseResult.err (ContextualError.Base64DecodeError "base64 decode failure")
    | some decoded =>
      let decoded_str := utf8Lossy decoded
      match splitFirst ':' decoded_str with
      | some (u, p) => ParseResult.ok ⟨String.mk u, String.mk p⟩
      | none => ParseResult.panic

/-- Outcome of the Auth middleware response hook (src/auth.rs), parameterised
by the type of the wrapped response so that pass-through of the original
response is visible in the type. -/
inductive AuthOutcome (R : Type) where
  | done : R → AuthOutcome R
  | badRequest : AuthOutcome R
  | unauthorized : AuthOutcome R
  | panic : AuthOutcome R
deriving DecidableEq

/-- The response hook of the Auth middleware (src/auth.rs): with an empty
account list the original response is returned unchanged; otherwise the
Authorization header is parsed and matched, a parse failure yields a 400
page, a match passes the response through, and anything else yields a 401
challenge. -/
def authResponse {R : Type} (A : HashAlgs) (required_auth : List RequiredAuth)
    (auth_header : Option (List Nat)) (resp : R) : AuthOutcome R :=
  if required_auth.isEmpty then AuthOutcome.done resp
  else
    match auth_header with
    | some h =>
      match parse_basic_auth h with
      | ParseResult.err _ => AuthOutcome.badRequest
      | ParseResult.panic => AuthOutcome.panic
      | ParseResult.ok auth_req =>
        if match_auth A auth_req required_auth then AuthOutcome.done resp
        else AuthOutcome.unauthorized
    | none => AuthOutcome.unauthorized

/-- Bytes of a visible-ASCII string, for concrete header values. -/
def asciiBytes (s : String) : List Nat :=
  s.data.map Char.toNat

/-- Filesystem metadata, as consulted by check_target_dir. -/
structure Metadata where
  is_dir : Bool
  readonly : Bool
deriving DecidableEq

/-- In-memory filesystem state: files with their byte content, and
directories with a readonly flag. -/
structure FS where
  files : List (FsPath × List Nat)
  dirs : List (FsPath × Bool)
deriving DecidableEq

/-- First-match association lookup on path keys. -/
def lookupPath {α : Type} : List (FsPath × α) → FsPath → Option α
  | [], _ => none
  | (q, v) :: rest, p => if q = p then some v else lookupPath rest p

/-- Metadata of a path: files are non-directories, directories carry their
readonly flag, anything else has no metadata (the metadata call errors). -/
def FS.metadata (fs : FS) (p : FsPath) : Option Metadata :=
  match lookupPath fs.files p with
  | some _ => some ⟨false, false⟩
  | none =>
    match lookupPath fs.dirs p with
    | some ro => some ⟨true, ro⟩
    | none => none

/-- The exists test of the source: any filesystem object at the path. -/
def FS.pathExists (fs : FS) (p : FsPath) : Bool :=
  (lookupPath fs.files p).isSome || (lookupPath fs.dirs p).isSome

/-- Content of the file at a path, if one is there. -/
def FS.readFile (fs : FS) (p : FsPath) : Option (List Nat) :=
  lookupPath fs.files p

/-- Create or truncate the file at a path with the given content. -/
def FS.setFile (fs : FS) (p : FsPath) (content : List Nat) : FS :=
  ⟨(p, content) :: fs.files, fs.dirs⟩

/-- Append bytes to the file at a path (missing file treated as empty). -/
def FS.appendFile (fs : FS) (p : FsPath) (bytes : List Nat) : FS :=
  fs.setFile p (((fs.readFile p).getD []) ++ bytes)

/-- Create a directory (writable) at a path. -/
def FS.addDir (fs : FS) (p : FsPath) : FS :=
  ⟨fs.files, (p, false) :: fs.dirs⟩

/-- check_dir_name from src/file_upload.rs: every component must be a
current-directory marker or a named segment; a root or parent-reference
component is an invalid path. -/
def check_dir_name (dir_name : FsPath) : Except ContextualError Unit :=
  if dir_name.components.all
      (fun c =>
        match c with
        | PathComponent.curDir => true
        | PathComponent.normal _ => true
        | _ => false) then
    Except.ok ()
  else
    Except.error (ContextualError.InvalidPathError
      ("illegal directory name " ++ dir_name.render))

/-- check_target_dir from src/file_upload.rs: the target must have metadata
(else insufficient permissions), must be a directory (else invalid path) and
must not be readonly (else insufficient permissions). -/
def check_target_dir (fs : FS) (target_dir : FsPath) (message : String) :
    Except ContextualError Unit :=
  match fs.metadata target_dir with
  | some m =>
    if !m.is_dir then
      Except.error (ContextualError.InvalidPathError
        ("cannot " ++ message ++ " to " ++ target_dir.render ++
          ", since it is not a directory"))
    else if m.readonly then
      Except.error (ContextualError.InsufficientPermissionsError
        target_dir.render)
    else Except.ok ()
  | none =>
    Except.error (ContextualError.InsufficientPermissionsError
      target_dir.render)

/-- One item of a multipart field byte stream: a chunk of bytes, or a
multipart error produced by the stream. -/
inductive Chunk where
  | bytes : List Nat → Chunk
  | err : String → Chunk
deriving DecidableEq

/-- True on byte chunks. -/
def Chunk.isBytes : Chunk → Bool
  | Chunk.bytes _ => true
  | Chunk.err _ => false

/-- Payload of a chunk (empty for error items). -/
def Chunk.data : Chunk → List Nat
  | Chunk.bytes bs => bs
  | Chunk.err _ => []

/-- The try_fold of save_file: write each chunk to the file in order,
accumulating the byte count; a stream error stops the fold with a multipart
error, leaving the bytes already written in place. -/
def writeChunks (fs : FS) (file_path : FsPath) (acc : Int) :
    List Chunk → Except ContextualError Int × FS
  | [] => (Except.ok acc, fs)
  | Chunk.err e :: _ => (Except.error (ContextualError.MultipartError e), fs)
  | Chunk.bytes bs :: rest =>
    writeChunks (fs.appendFile file_path bs) file_path
      (acc + (bs.length : Int)) rest

/-- save_file from src/file_upload.rs: with overwriting disabled an existing
destination fails fast with a duplicate-file error and the state untouched;
otherwise the destination is created (truncated) — an OS creation failure,
modelled by the createOk oracle, is an IO error — and the field stream is
written chunk by chunk. -/
def save_file (fs : FS) (field : List Chunk) (file_path : FsPath)
    (overwrite_files : Bool) (createOk : Bool) :
    Except ContextualError Int × FS :=
  if !overwrite_files && fs.pathExists file_path then
    (Except.error ContextualError.DuplicateFileError, fs)
  else if !createOk then
    (Except.error (ContextualError.IoError
      ("Failed to create " ++ file_path.render) "os error"), fs)
  else
    writeChunks (fs.setFile file_path []) file_path 0 field

/-- The destination a multipart field is saved to (the join in
handle_multipart): the declared filename, parsed as a path, joined onto the
target directory. -/
def uploadDestination (file_path : FsPath) (filename : String) : FsPath :=
  file_path.join (parsePath filename)

/-- handle_multipart from src/file_upload.rs: the filename extracted from the
Content-Disposition header (an external parse, given here as an optional
value) is required, the target directory is checked, and the field is saved
to the target directory joined with the filename.  The filename is not
re-validated against traversal. -/
def handle_multipart (fs : FS) (filename : Option String)
    (file_path : FsPath) (field : List Chunk)
    (overwrite_files : Bool) (createOk : Bool) :
    Except ContextualError Int × FS :=
  match filename with
  | none =>
    (Except.error (ContextualError.ParseError "HTTP header"
      "Failed to retrieve the name of the file to upload"), fs)
  | some f =>
    match check_target_dir fs file_path "upload file" with
    | Except.error e => (Except.error e, fs)
    | Except.ok _ =>
      save_file fs field (uploadDestination file_path f)
        overwrite_files createOk

/-- handle_create_dir from src/file_upload.rs: check the target directory,
then the directory name, join them, fail with a mkdir-conflict error if the
joined path exists, otherwise create one directory level (an OS failure,
modelled by the createOk oracle, is an IO error). -/
def handle_create_dir (fs : FS) (target_dir dir_name : FsPath)
    (createOk : Bool) : Except ContextualError Unit × FS :=
  match check_target_dir fs target_dir "create directory" with
  | Except.error e => (Except.error e, fs)
  | Except.ok _ =>
    match check_dir_name dir_name with
    | Except.error e => (Except.error e, fs)
    | Except.ok _ =>
      let target := target_dir.join dir_name
      if fs.pathExists target then
        (Except.error ContextualError.ConflictMkdirError, fs)
      else if createOk then (Except.ok (), fs.addDir target)
      else
        (Except.error (ContextualError.IoError
          ("Failed to create " ++ target.render) "os error"), fs)

/-- The sandbox resolution step shared by the upload and mkdir handlers
(src/file_upload.rs, upload_file and create_dir): strip a leading root
component from the client path, join it onto the canonicalized server root,
canonicalize the result (the filesystem action is the canonicalize oracle),
and accept only a result that starts with the root, component-wise; every
other outcome is an invalid-request error. -/
def resolve_target (canonicalize : FsPath → Option FsPath)
    (app_root_dir client_path : FsPath) : Except ContextualError FsPath :=
  let rel := client_path.stripRootDir
  match canonicalize (app_root_dir.join rel) with
  | some path =>
    if path.startsWith app_root_dir then Except.ok path
    else
      Except.error (ContextualError.InvalidHttpRequestError
        "Invalid value for 'path' parameter")
  | none =>
    Except.error (ContextualError.InvalidHttpRequestError
      "Invalid value for 'path' parameter")

/-- The parts of an error response that the claims talk about: the HTTP wire
status of the response and the status rendered into the page body. -/
structure ErrorResponseParts where
  wire : Nat
  bodyCode : Nat
deriving DecidableEq

/-- create_error_response from src/file_upload.rs: the response is always
built with the bad-request builder (wire status 400); the error_code argument
is passed on only to the page renderer. -/
def create_error_response (error_code : Nat) : ErrorResponseParts :=
  ⟨400, error_code⟩

/-- A handler response: a see-other redirect to the return path, or an error
page with its wire status and rendered body status. -/
inductive HandlerResponse where
  | seeOther : String → HandlerResponse
  | errorPage : Nat → Nat → HandlerResponse
deriving DecidableEq

/-- Wrap error-response parts as a handler response. -/
def respondErr (e : ErrorResponseParts) : HandlerResponse :=
  HandlerResponse.errorPage e.wire e.bodyCode

/-- upload_file from src/file_upload.rs.  Inputs are the pieces the handler
reads from the request and the environment: the canonicalized server root
(none when canonicalizing the configured path fails), the canonicalize
oracle, the path query parameter, the outcome of streaming all multipart
fields to the resolved target directory, and the return path from the
Referer header.  A missing path parameter is a 400-coded error page, a root
canonicalization failure a 500-coded one, a failed sandbox resolution a
400-coded one, a multipart failure a 500-coded one; success redirects. -/
def upload_file (conf_canon : Option FsPath)
    (canonicalize : FsPath → Option FsPath) (query_path : Option FsPath)
    (collect : FsPath → Except ContextualError (List Int))
    (return_path : String) : HandlerResponse :=
  match query_path with
  | none => respondErr (create_error_response 400)
  | some path =>
    match conf_canon with
    | none => respondErr (create_error_response 500)
    | some app_root_dir =>
      match resolve_target canonicalize app_root_dir path with
      | Except.error _ => respondErr (create_error_response 400)
      | Except.ok target_dir =>
        match collect target_dir with
        | Except.ok _ => HandlerResponse.seeOther return_path
        | Except.error _ => respondErr (create_error_response 500)

/-- create_dir from src/file_upload.rs.  Same environment as upload_file,
plus the mkdir_name form field and the mkdir oracle; a missing path or
mkdir_name parameter is a 400-coded error page, a root canonicalization
failure a 500-coded one, a failed sandbox resolution a 400-coded one, a
handle_create_dir failure a 500-coded one; success redirects. -/
def create_dir (fs : FS) (conf_canon : Option FsPath)
    (canonicalize : FsPath → Option FsPath) (query_path : Option FsPath)
    (mkdir_name : Option FsPath) (createOk : Bool) (return_path : String) :
    HandlerResponse × FS :=
  match query_path with
  | none => (respondErr (create_error_response 400), fs)
  | some path =>
    match mkdir_name with
    | none => (respondErr (create_error_response 400), fs)
    | some name =>
      match conf_canon with
      | none => (respondErr (create_error_response 500), fs)
      | some app_root_dir =>
        match resolve_target canonicalize app_root_dir path with
        | Except.error _ => (respondErr (create_error_response 400), fs)
        | Except.ok target_dir =>
          match handle_create_dir fs target_dir name createOk with
          | (Except.ok _, fs2) => (HandlerResponse.seeOther return_path, fs2)
          | (Except.error _, fs2) =>
            (respondErr (create_error_response 500), fs2)

/-- Lookup after a cons unfolds to a conditional. -/
theorem lookupPath_cons {α : Type} (q : FsPath) (v : α)
    (l : List (FsPath × α)) (p : FsPath) :
    lookupPath ((q, v) :: l) p = if q = p then some v else lookupPath l p :=
  rfl

/-- A target passes check_target_dir exactly when it is no file and is a
writable directory in the state. -/
theorem check_target_dir_ok_iff (fs : FS) (t : FsPath) (msg : String) :
    check_target_dir fs t msg = Except.ok () ↔
      lookupPath fs.files t = none ∧ lookupPath fs.dirs t = some false := by
  unfold check_target_dir FS.metadata
  cases hf : lookupPath fs.files t with
  | some v => simp [hf]
  | none =>
    cases hd : lookupPath fs.dirs t with
    | none => simp
    | some ro => cases ro <;> simp

/-- C1: for every client-supplied path, under any canonicalization behaviour
of the filesystem (so with any number of parent references or symlink
indirection), the sandbox resolution step of the upload and mkdir handlers
either fails with an invalid-HTTP-request error or returns a path that has
the server root as a component-wise prefix; no input can produce a target
outside the root. -/
theorem sandbox_containment (canonicalize : FsPath → Option FsPath)
    (app_root_dir client_path : FsPath) :
    resolve_target canonicalize app_root_dir client_path =
      Except.error (ContextualError.InvalidHttpRequestError
        "Invalid value for 'path' parameter") ∨
    ∃ t, resolve_target canonicalize app_root_dir client_path = Except.ok t ∧
      t.startsWith app_root_dir = true := by
  unfold resolve_target
  cases h : canonicalize (app_root_dir.join client_path.stripRootDir) with
  | none => exact Or.inl (by simp [h])
  | some p =>
    by_cases hp : p.startsWith app_root_dir = true
    · exact Or.inr ⟨p, by simp [h, hp], hp⟩
    · simp only [Bool.not_eq_true] at hp
      exact Or.inl (by simp [h, hp])

/-- C4: on a header whose base64 payload decodes to a string with no colon,
parse_basic_auth reaches the out-of-bounds vector read: the code does not
return a typed error but panics (Basic bm9jb2xvbg== decodes to the
colon-free string nocolon). -/
theorem parse_basic_auth_no_colon_panics :
    parse_basic_auth (asciiBytes "Basic bm9jb2xvbg==") = ParseResult.panic := by
  decide

/-- C5 counterexample: a header value that does not begin with the Basic
prefix is not rejected with a parse error; it is base64-decoded directly and
accepted (dXNlcjpwYXNz decodes to user:pass). -/
theorem parse_basic_auth_no_basic_required :
    parse_basic_auth (asciiBytes "dXNlcjpwYXNz") =
      ParseResult.ok ⟨"user", "pass"⟩ := by
  decide

/-- C5 (amended): parse_basic_auth does not require a leading Basic prefix;
it removes every occurrence of the substring Basic-space anywhere in the
UTF-8 header value and base64-decodes whatever remains, so a header lacking
the prefix, or one whose occurrences sit mid-string, is decoded rather than
rejected. -/
theorem parse_basic_auth_replaces_all :
    (∀ h s, headerToStr h = some s →
      parse_basic_auth h =
        decodeCreds (String.mk (replaceAll basicPat [] s.data))) ∧
    parse_basic_auth (asciiBytes "dXNlBasic cjpwYXNz") =
      ParseResult.ok ⟨"user", "pass"⟩ := by
  constructor
  · intro h s hs
    unfold parse_basic_auth decodeCreds
    rw [hs]
  · decide

/-- C5 witness: the general part of the amended claim, instantiated at a
concrete header carrying two occurrences of the pattern. -/
theorem parse_basic_auth_replaces_all_witness :
    parse_basic_auth (asciiBytes "Basic Basic dXNlcjpwYXNz") =
      decodeCreds (String.mk (replaceAll basicPat []
        ("Basic Basic dXNlcjpwYXNz").data)) :=
  parse_basic_auth_replaces_all.1 (asciiBytes "Basic Basic dXNlcjpwYXNz")
    "Basic Basic dXNlcjpwYXNz" (by decide)

/-- C7: with an empty configured account list the Auth middleware returns the
original response unchanged, whatever the Authorization header holds (absent,
malformed or wrong): the account list is tested before the header is even
read. -/
theorem empty_accounts_pass_through {R : Type} (A : HashAlgs)
    (auth_header : Option (List Nat)) (resp : R) :
    authResponse A [] auth_header resp = AuthOutcome.done resp :=
  rfl

/-- C9 counterexample: the status derivation sends ParseError to 500 (it has
no dedicated arm and falls to the catch-all), not 400; likewise the
mkdir-conflict error has no dedicated arm and maps to 500. -/
theorem status_code_parse_error_500 :
    (ContextualError.ParseError "HTTP header" "bad").status_code = 500 ∧
    ContextualError.ConflictMkdirError.status_code = 500 := by
  exact ⟨rfl, rfl⟩

/-- C9 (amended): the status table of the code: IoError, MultipartError,
DuplicateFileError, InvalidPathError, ParseError and ConflictMkdirError all
map to the 500 catch-all, InvalidHttpCredentials to 401,
InsufficientPermissionsError to 403, InvalidHttpRequestError to 400,
RouteNotFoundError to 404, and the composite archive-creation and
HTTP-authentication variants derive their status recursively from the
wrapped cause. -/
theorem status_code_table (s t : String) (e : ContextualError) :
    (ContextualError.IoError s t).status_code = 500 ∧
    (ContextualError.MultipartError s).status_code = 500 ∧
    ContextualError.DuplicateFileError.status_code = 500 ∧
    (ContextualError.InvalidPathError s).status_code = 500 ∧
    ContextualError.InvalidHttpCredentials.status_code = 401 ∧
    (ContextualError.ParseError s t).status_code = 500 ∧
    (ContextualError.InsufficientPermissionsError s).status_code = 403 ∧
    (ContextualError.InvalidHttpRequestError s).status_code = 400 ∧
    ContextualError.ConflictMkdirError.status_code = 500 ∧
    (ContextualError.RouteNotFoundError s).status_code = 404 ∧
    (ContextualError.ArchiveCreationError s e).status_code = e.status_code ∧
    (ContextualError.HttpAuthenticationError e).status_code = e.status_code :=
  ⟨rfl, rfl, rfl, rfl, rfl, rfl, rfl, rfl, rfl, rfl, rfl, rfl⟩

/-- Restatement from the spec, for comparison with compare_password: Plain
compares the password strings, Sha256 and Sha512 compare the digest of the
attempted password with the stored digest bytes. -/
def specPasswordAccepts (A : HashAlgs) (required : RequiredAuthPassword)
    (attempt_pwd : String) : Prop :=
  match required with
  | RequiredAuthPassword.Plain stored => attempt_pwd = stored
  | RequiredAuthPassword.Sha256 digest => A.sha256 attempt_pwd = digest
  | RequiredAuthPassword.Sha512 digest => A.sha512 attempt_pwd = digest

/-- compare_password agrees with the spec-side acceptance predicate. -/
theorem compare_password_iff (A : HashAlgs) (pwd : String)
    (required : RequiredAuthPassword) :
    compare_password A pwd required = true ↔
      specPasswordAccepts A required pwd := by
  cases required <;>
    simp [compare_password, compare_hash, specPasswordAccepts]

/-- C3: match_auth returns true exactly when some configured account has the
username of the attempt and a password spec accepting the attempted password,
where Plain compares the strings and Sha256 and Sha512 compare the digest of
the attempted password byte-for-byte with the stored digest. -/
theorem match_auth_iff (A : HashAlgs) (attempt : BasicAuthParams)
    (accounts : List RequiredAuth) :
    match_auth A attempt accounts = true ↔
      ∃ acc ∈ accounts, acc.username = attempt.username ∧
        specPasswordAccepts A acc.password attempt.password := by
  unfold match_auth
  rw [List.any_eq_true]
  constructor
  · rintro ⟨r, hr, hb⟩
    rw [Bool.and_eq_true, beq_iff_eq] at hb
    exact ⟨r, hr, hb.1.symm, (compare_password_iff A attempt.password r.password).mp hb.2⟩
  · rintro ⟨r, hr, hu, hpw⟩
    refine ⟨r, hr, ?_⟩
    rw [Bool.and_eq_true, beq_iff_eq]
    exact ⟨hu.symm, (compare_password_iff A attempt.password r.password).mpr hpw⟩

/-- C2: the ingestion destination for a multipart field with an extracted
filename is exactly the sandboxed target directory joined with the filename,
with no re-validation of the filename against traversal; consequently a
filename carrying an absolute (root) component yields a destination that does
not have the target directory as a component-wise prefix. -/
theorem upload_destination_unvalidated :
    (∀ fs file_path f field overwrite_files createOk,
      check_target_dir fs file_path "upload file" = Except.ok () →
      handle_multipart fs (some f) file_path field overwrite_files createOk =
        save_file fs field (FsPath.join file_path (parsePath f))
          overwrite_files createOk) ∧
    ∃ fname : String,
      (parsePath fname).components.contains PathComponent.rootDir = true ∧
      (uploadDestination
          ⟨[PathComponent.rootDir, PathComponent.normal "srv",
            PathComponent.normal "root"]⟩ fname).startsWith
        ⟨[PathComponent.rootDir, PathComponent.normal "srv",
          PathComponent.normal "root"]⟩ = false := by
  constructor
  · intro fs file_path f field overwrite_files createOk hcheck
    unfold handle_multipart
    rw [hcheck]
    rfl
  · exact ⟨"/etc/passwd", by decide, by decide⟩

/-- C2 witness: the destination equation instantiated at a concrete writable
target directory and filename. -/
theorem upload_destination_unvalidated_witness :
    handle_multipart
        ⟨[], [(⟨[PathComponent.rootDir, PathComponent.normal "srv"]⟩, false)]⟩
        (some "a.txt") ⟨[PathComponent.rootDir, PathComponent.normal "srv"]⟩
        [] true true =
      save_file ⟨[], [(⟨[PathComponent.rootDir, PathComponent.normal "srv"]⟩, false)]⟩
        [] (FsPath.join ⟨[PathComponent.rootDir, PathComponent.normal "srv"]⟩
          (parsePath "a.txt")) true true :=
  upload_destination_unvalidated.1
    ⟨[], [(⟨[PathComponent.rootDir, PathComponent.normal "srv"]⟩, false)]⟩
    ⟨[PathComponent.rootDir, PathComponent.normal "srv"]⟩
    "a.txt" [] true true (by decide)

/-- The file just written by setFile reads back as its content. -/
theorem readFile_setFile (fs : FS) (p : FsPath) (content : List Nat) :
    (fs.setFile p content).readFile p = some content := by
  simp [FS.setFile, FS.readFile, lookupPath]

/-- Folding an error-free chunk stream appends exactly the concatenation of
the chunks to the current file content. -/
theorem writeChunks_content (file_path : FsPath) :
    ∀ (field : List Chunk) (fs : FS) (acc : Int) (content : List Nat),
      fs.readFile file_path = some content →
      (∀ c ∈ field, c.isBytes = true) →
      (writeChunks fs file_path acc field).2.readFile file_path =
        some (content ++ (field.map Chunk.data).flatten) := by
  intro field
  induction field with
  | nil => intro fs acc content hread _; simpa [writeChunks] using hread
  | cons c rest ih =>
    intro fs acc content hread hok
    cases c with
    | err e => exact absurd (hok _ (List.mem_cons_self _ _)) (by simp [Chunk.isBytes])
    | bytes bs =>
      have hrest : ∀ d ∈ rest, d.isBytes = true :=
        fun d hd => hok d (List.mem_cons_of_mem _ hd)
      have happ : (fs.appendFile file_path bs).readFile file_path =
          some (content ++ bs) := by
        rw [FS.appendFile, hread]
        simpa using readFile_setFile fs file_path (content ++ bs)
      rw [writeChunks]
      rw [ih (fs.appendFile file_path bs) (acc + (bs.length : Int))
        (content ++ bs) happ hrest]
      simp [Chunk.data]

/-- C6: with overwriting disabled and an existing destination, save_file
fails fast with the duplicate-file error and leaves the filesystem state
(hence the existing bytes) untouched; with overwriting enabled or a fresh
destination, a successful creation and an error-free field stream leave the
destination holding exactly the concatenated uploaded bytes. -/
theorem save_file_overwrite_policy (fs : FS) (field : List Chunk)
    (file_path : FsPath) (createOk : Bool) :
    (fs.pathExists file_path = true →
      save_file fs field file_path false createOk =
        (Except.error ContextualError.DuplicateFileError, fs)) ∧
    (∀ overwrite_files,
      (overwrite_files = true ∨ fs.pathExists file_path = false) →
      createOk = true →
      (∀ c ∈ field, c.isBytes = true) →
      (save_file fs field file_path overwrite_files createOk).2.readFile
          file_path =
        some ((field.map Chunk.data).flatten)) := by
  constructor
  · intro hex
    unfold save_file
    simp [hex]
  · intro overwrite_files hfresh hcreate hok
    have hguard : (!overwrite_files && fs.pathExists file_path) = false := by
      rcases hfresh with h | h <;> simp [h]
    unfold save_file
    rw [hguard, hcreate]
    simpa using writeChunks_content file_path field
      (fs.setFile file_path []) 0 []
      (readFile_setFile fs file_path []) hok

/-- C6 witness: a concrete duplicate rejection leaving the state unchanged,
and a concrete overwrite whose final content is the uploaded bytes. -/
theorem save_file_overwrite_policy_witness :
    save_file ⟨[(⟨[PathComponent.normal "f.txt"]⟩, [1, 2])], []⟩ []
        ⟨[PathComponent.normal "f.txt"]⟩ false true =
      (Except.error ContextualError.DuplicateFileError,
        ⟨[(⟨[PathComponent.normal "f.txt"]⟩, [1, 2])], []⟩) ∧
    (save_file ⟨[(⟨[PathComponent.normal "f.txt"]⟩, [1, 2])], []⟩
        [Chunk.bytes [7, 8], Chunk.bytes [9]]
        ⟨[PathComponent.normal "f.txt"]⟩ true true).2.readFile
        ⟨[PathComponent.normal "f.txt"]⟩ = some [7, 8, 9] := by
  constructor
  · exact (save_file_overwrite_policy
      ⟨[(⟨[PathComponent.normal "f.txt"]⟩, [1, 2])], []⟩ []
      ⟨[PathComponent.normal "f.txt"]⟩ true).1 (by decide)
  · have := (save_file_overwrite_policy
      ⟨[(⟨[PathComponent.normal "f.txt"]⟩, [1, 2])], []⟩
      [Chunk.bytes [7, 8], Chunk.bytes [9]]
      ⟨[PathComponent.normal "f.txt"]⟩ true).2 true (Or.inl rfl) rfl
      (by decide)
    simpa using this

/-- C8 counterexample: with a target directory that fails the target check
(here a path with no filesystem entry at all), creating the
parent-referencing name ../evil does not fail with InvalidPathError — the
target check runs first and the error is InsufficientPermissionsError, so
the name validation error does not hold regardless of the target. -/
theorem mkdir_bad_target_counterexample :
    (handle_create_dir ⟨[], []⟩
        ⟨[PathComponent.rootDir, PathComponent.normal "srv"]⟩
        (parsePath "../evil") true).1 =
      Except.error (ContextualError.InsufficientPermissionsError
        (FsPath.render ⟨[PathComponent.rootDir, PathComponent.normal "srv"]⟩)) ∧
    (match (handle_create_dir ⟨[], []⟩
        ⟨[PathComponent.rootDir, PathComponent.normal "srv"]⟩
        (parsePath "../evil") true).1 with
      | Except.error e => e.isInvalidPath
      | Except.ok _ => false) = false := by
  decide

/-- C8 (amended): name validation accepts exactly the names whose components
are all current-directory markers or named segments; for every target
directory that passes the target check, a name with any other component
fails with InvalidPathError, and a valid fresh name succeeds once and fails
with the mkdir-conflict error when created again; for targets failing the
target check the error is the target check error instead. -/
theorem mkdir_validation_and_conflict (fs : FS) (target_dir : FsPath)
    (createOk : Bool) :
    (∀ name : FsPath, check_dir_name name = Except.ok () ↔
      name.components.all
        (fun c =>
          match c with
          | PathComponent.curDir => true
          | PathComponent.normal _ => true
          | _ => false) = true) ∧
    (check_target_dir fs target_dir "create directory" = Except.ok () →
      (∀ name : FsPath, check_dir_name name ≠ Except.ok () →
        (handle_create_dir fs target_dir name createOk).1 =
          Except.error (ContextualError.InvalidPathError
            ("illegal directory name " ++ name.render))) ∧
      (∀ name : FsPath, check_dir_name name = Except.ok () →
        fs.pathExists (target_dir.join name) = false → createOk = true →
        (handle_create_dir fs target_dir name createOk).1 = Except.ok () ∧
        (handle_create_dir (handle_create_dir fs target_dir name createOk).2
            target_dir name createOk).1 =
          Except.error ContextualError.ConflictMkdirError)) := by
  refine ⟨?_, ?_⟩
  · intro name
    unfold check_dir_name
    by_cases h : name.components.all
        (fun c =>
          match c with
          | PathComponent.curDir => true
          | PathComponent.normal _ => true
          | _ => false) = true
    · simp [h]
    · simp [h]
  · intro hcheck
    constructor
    · intro name hname
      unfold handle_create_dir
      rw [hcheck]
      unfold check_dir_name at hname ⊢
      by_cases h : name.components.all
          (fun c =>
            match c with
            | PathComponent.curDir => true
            | PathComponent.normal _ => true
            | _ => false) = true
      · exact absurd (by simp [h]) hname
      · simp [h]
    · intro name hname hfresh hcreate
      obtain ⟨hfiles, hdirs⟩ := (check_target_dir_ok_iff fs target_dir
        "create directory").mp hcheck
      have hfirst : handle_create_dir fs target_dir name createOk =
          (Except.ok (), fs.addDir (target_dir.join name)) := by
        unfold handle_create_dir
        rw [hcheck, hname]
        simp [hfresh, hcreate]
      have hfiles2 : lookupPath (fs.addDir (target_dir.join name)).files
          target_dir = none := hfiles
      have hdirs2 : lookupPath (fs.addDir (target_dir.join name)).dirs
          target_dir = some false := by
        rw [FS.addDir]
        rw [lookupPath_cons]
        by_cases he : target_dir.join name = target_dir
        · rw [if_pos he]
        · rw [if_neg he]
          exact hdirs
      have hcheck2 : check_target_dir (fs.addDir (target_dir.join name))
          target_dir "create directory" = Except.ok () :=
        (check_target_dir_ok_iff _ _ _).mpr ⟨hfiles2, hdirs2⟩
      have hex2 : (fs.addDir (target_dir.join name)).pathExists
          (target_dir.join name) = true := by
        unfold FS.pathExists FS.addDir
        rw [lookupPath_cons]
        simp
      refine ⟨by rw [hfirst], ?_⟩
      rw [hfirst]
      unfold handle_create_dir
      rw [hcheck2, hname]
      simp [hex2]

/-- C8 witness: the amended behaviour at a concrete writable target: name
validation rejects a parent reference, and creating sub twice succeeds then
conflicts. -/
theorem mkdir_validation_and_conflict_witness :
    (handle_create_dir
        ⟨[], [(⟨[PathComponent.rootDir, PathComponent.normal "srv"]⟩, false)]⟩
        ⟨[PathComponent.rootDir, PathComponent.normal "srv"]⟩
        (parsePath "sub") true).1 = Except.ok () ∧
    (handle_create_dir
        (handle_create_dir
          ⟨[], [(⟨[PathComponent.rootDir, PathComponent.normal "srv"]⟩, false)]⟩
          ⟨[PathComponent.rootDir, PathComponent.normal "srv"]⟩
          (parsePath "sub") true).2
        ⟨[PathComponent.rootDir, PathComponent.normal "srv"]⟩
        (parsePath "sub") true).1 =
      Except.error ContextualError.ConflictMkdirError :=
  ((mkdir_validation_and_conflict
      ⟨[], [(⟨[PathComponent.rootDir, PathComponent.normal "srv"]⟩, false)]⟩
      ⟨[PathComponent.rootDir, PathComponent.normal "srv"]⟩ true).2
    (by decide)).2 (parsePath "sub") (by decide) (by decide) rfl

/-- C10: every error response of the upload and mkdir handlers leaves with
wire status 400 (the response is always built by the bad-request builder,
whose error_code argument only reaches the rendered body), and multipart and
mkdir failures in particular are rendered with an internal-server-error body
code, the duplicate-file and mkdir-conflict errors included. -/
theorem handler_error_responses_wire_400
    (conf_canon : Option FsPath) (canonicalize : FsPath → Option FsPath)
    (query_path : Option FsPath)
    (collect : FsPath → Except ContextualError (List Int))
    (return_path : String) (fs : FS) (mkdir_name : Option FsPath)
    (createOk : Bool) :
    (∀ code, (create_error_response code).wire = 400) ∧
    ((∃ loc, upload_file conf_canon canonicalize query_path collect
        return_path = HandlerResponse.seeOther loc) ∨
      ∃ b, upload_file conf_canon canonicalize query_path collect
        return_path = HandlerResponse.errorPage 400 b) ∧
    ((∃ loc fs2, create_dir fs conf_canon canonicalize query_path mkdir_name
        createOk return_path = (HandlerResponse.seeOther loc, fs2)) ∨
      ∃ b fs2, create_dir fs conf_canon canonicalize query_path mkdir_name
        createOk return_path = (HandlerResponse.errorPage 400 b, fs2)) ∧
    (∀ path root t e, query_path = some path → conf_canon = some root →
      resolve_target canonicalize root path = Except.ok t →
      collect t = Except.error e →
      upload_file conf_canon canonicalize query_path collect return_path =
        HandlerResponse.errorPage 400 500) ∧
    (∀ path root t name e, query_path = some path →
      mkdir_name = some name → conf_canon = some root →
      resolve_target canonicalize root path = Except.ok t →
      (handle_create_dir fs t name createOk).1 = Except.error e →
      (create_dir fs conf_canon canonicalize query_path mkdir_name createOk
          return_path).1 = HandlerResponse.errorPage 400 500) := by
  refine ⟨fun _ => rfl, ?_, ?_, ?_, ?_⟩
  · unfold upload_file
    cases query_path with
    | none => exact Or.inr ⟨400, rfl⟩
    | some path =>
      cases conf_canon with
      | none => exact Or.inr ⟨500, rfl⟩
      | some root =>
        cases hres : resolve_target canonicalize root path with
        | error e => exact Or.inr ⟨400, by simp [hres, respondErr, create_error_response]⟩
        | ok t =>
          cases hc : collect t with
          | ok v => exact Or.inl ⟨return_path, by simp [hres, hc]⟩
          | error e => exact Or.inr ⟨500, by simp [hres, hc, respondErr, create_error_response]⟩
  · unfold create_dir
    cases query_path with
    | none => exact Or.inr ⟨400, fs, rfl⟩
    | some path =>
      cases mkdir_name with
      | none => exact Or.inr ⟨400, fs, rfl⟩
      | some name =>
        cases conf_canon with
        | none => exact Or.inr ⟨500, fs, rfl⟩
        | some root =>
          cases hres : resolve_target canonicalize root path with
          | error e =>
            exact Or.inr ⟨400, fs, by simp [hres, respondErr, create_error_response]⟩
          | ok t =>
            cases hmk : handle_create_dir fs t name createOk with
            | mk r fs2 =>
              cases r with
              | ok u => exact Or.inl ⟨return_path, fs2, by simp [hres, hmk]⟩
              | error e =>
                exact Or.inr ⟨500, fs2, by simp [hres, hmk, respondErr, create_error_response]⟩
  · intro path root t e hq hc hres hcoll
    subst hq; subst hc
    unfold upload_file
    simp [hres, hcoll, respondErr, create_error_response]
  · intro path root t name e hq hm hc hres hmk
    subst hq; subst hm; subst hc
    unfold create_dir
    cases hmk2 : handle_create_dir fs t name createOk with
    | mk r fs2 =>
      rw [hmk2] at hmk
      cases r with
      | ok u => simp at hmk
      | error e2 => simp [hres, hmk2, respondErr, create_error_response]

/-- C10 witness: concrete upload and mkdir failures (a duplicate file and a
mkdir conflict) rendered as a wire-400 page with a 500 body code. -/
theorem handler_error_responses_wire_400_witness :
    upload_file (some ⟨[PathComponent.rootDir]⟩)
        (fun p => some p) (some ⟨[]⟩)
        (fun _ => Except.error ContextualError.DuplicateFileError) "/" =
      HandlerResponse.errorPage 400 500 :=
  (handler_error_responses_wire_400 (some ⟨[PathComponent.rootDir]⟩)
      (fun p => some p) (some ⟨[]⟩)
      (fun _ => Except.error ContextualError.DuplicateFileError) "/"
      ⟨[], []⟩ none true).2.2.2.1
    ⟨[]⟩ ⟨[PathComponent.rootDir]⟩ ⟨[PathComponent.rootDir]⟩
    ContextualError.DuplicateFileError rfl rfl (by decide) rfl
